import Mathlib

/-!
Verification development for the asynchronous request lifecycle manager of
`server.py` (an MCP server dispatching browser-automation tasks).

The embedding is shallow:
* the in-memory dict `search_results` becomes an association list with
  Python-dict update semantics (`Store.set` updates an existing key in place,
  otherwise appends; insertion order of keys is preserved);
* the external engine `run_browser_agent(task, on_step)` becomes an abstract
  function from the task text to a pair of (number of step-callback
  invocations, final result), where the final result is `Except.ok text` for
  normal completion and `Except.error msg` for a raised exception with
  message `msg`;
* the caller side channel (`context.info`, `context.report_progress`,
  `context.error`) becomes a list of `Notification` values accumulated by a
  run, in emission order;
* `asyncio.create_task` becomes returning a `QueuedTask` descriptor from the
  dispatcher: the dispatcher computes its acknowledgement and store update
  without consulting the engine, and the background body is a separate
  function applied to the descriptor later.
-/

/-- The result store: `search_results`, a dict from request id to result
string. Modelled as an association list with Python-dict semantics. -/
abbrev Store := List (String × String)

/-- Lookup of a key, as `search_results[request_id]` guarded by
`request_id in search_results`. -/
def Store.get? : Store → String → Option String
  | [], _ => none
  | (k, v) :: rest, key => if k = key then some v else Store.get? rest key

/-- Dict assignment `search_results[key] = val`: update the existing entry in
place, otherwise append a new entry (Python dicts preserve insertion order). -/
def Store.set : Store → String → String → Store
  | [], key, val => [(key, val)]
  | (k, v) :: rest, key, val =>
      if k = key then (k, val) :: rest else (k, v) :: Store.set rest key val

/-- The keys of the store, in insertion order. -/
def Store.keys (s : Store) : List String := s.map Prod.fst

/-- One observation pushed to the caller side channel: `context.info`,
`context.report_progress` or `context.error`. -/
inductive Notification
  | info (msg : String)
  | progress (value : Nat)
  | error (msg : String)
deriving DecidableEq

/-- One run of the external engine `run_browser_agent` on a fixed task:
how many times it invokes the step callback, and its final result
(`Except.ok text` for normal return, `Except.error msg` for a raised
exception with message `msg`). -/
structure EngineRun where
  steps : Nat
  result : Except String String

/-- The external engine, as a function from the task text to its run. -/
def Engine := String → EngineRun

/-- The informational message of the search step handler:
`f"Step {step_count} completed"`. -/
def searchStepMsg (c : Nat) : String := "Step " ++ toString c ++ " completed"

/-- The informational message of the order step handler:
`f"Order step {step_count} completed"`. -/
def orderStepMsg (c : Nat) : String := "Order step " ++ toString c ++ " completed"

/-- One invocation of `step_handler`: increment the `step_count` counter,
then emit `context.info(msg(step_count))` and
`context.report_progress(step_count)`. Returns the new counter value and the
emitted notifications, in emission order. -/
def step_handler (msg : Nat → String) (step_count : Nat) : Nat × List Notification :=
  let c := step_count + 1
  (c, [Notification.info (msg c), Notification.progress c])

/-- The engine invoking the step callback `n` times in sequence, threading
the `step_count` counter (which starts at `count`). Returns all emitted
notifications in order. -/
def runSteps (msg : Nat → String) (count : Nat) : Nat → List Notification
  | 0 => []
  | Nat.succ n =>
      let p := step_handler msg count
      p.2 ++ runSteps msg p.1 n

/-- The search task text built by `find_menu_options` (an f-string in the
source; interpolations become concatenation). -/
def searchTaskText (search_term : String) : String :=
  "\n0. Start by going to: https://www.ubereats.com\n1. Type \"" ++ search_term ++
  "\" in the global search bar and press enter\n2. Go to the first search result (this is the most popular restaurant).\n3. When you can see the menu options for the resturant, we need to use the specific search input for the resturant located under the banned (identify it by the placeholder \"Search in [restaurant name]\"\n4. Click the input field and type \"" ++
  search_term ++ "\", then press enter\n5. Check for menu options related to \"" ++
  search_term ++ "\"\n6. Get the name, url and price of the top 3 items related to \"" ++
  search_term ++ "\". URL is very important\n"

/-- The order task text built by `order_food`. -/
def orderTaskText (item_url : String) : String :=
  "\n1. Go to " ++ item_url ++
  "\n2. Click \"Add to order\"\n3. Wait 3 seconds\n4. Click \"Go to checkout\"\n5. If there are upsell modals, click \"Skip\"\n6. Click \"Place order\"\n"

/-- The pending marker written by `find_menu_options` before scheduling:
`f"Search for '{search_term}' in progress. Check back in 30 seconds"`. -/
def pendingMsg (search_term : String) : String :=
  "Search for \x27" ++ search_term ++ "\x27 in progress. Check back in 30 seconds"

/-- The acknowledgement string returned by `find_menu_options`. -/
def searchAck (search_term request_id : String) : String :=
  "Search for \x27" ++ search_term ++
  "\x27 started. Please wait for 3 minutes, then you can retrieve results using the resource URI: resource://search_results/" ++
  request_id ++ ". Use a terminal sleep statement to wait for 2 minutes."

/-- The acknowledgement string returned by `order_food`. -/
def orderAck (item_name : String) : String :=
  "Order for \x27" ++ item_name ++ "\x27 started. Your order is being processed."

/-- The not-found string of the resource retrieval `get_search_results`. -/
def notFoundShort (request_id : String) : String :=
  "No search results found for request ID: " ++ request_id

/-- The not-found string of the tool retrieval `get_search_results_by_id`. -/
def notFoundLong (request_id : String) : String :=
  "No search results found for request ID: " ++ request_id ++
  ". Perhaps you need to wait for 2 more minutes before retrieving results, if you already have retried, then the search may have failed."

/-- A background task scheduled with `asyncio.create_task`, not yet run:
either `perform_search(request_id, search_term, task, context)` or
`perform_order(item_url, item_name, task, context)`. -/
inductive QueuedTask
  | search (request_id search_term task_text : String)
  | order (item_url item_name task_text : String)
deriving DecidableEq

/-- `find_menu_options(search_term, context)`: build the task text, write
the pending marker into `search_results[context.request_id]`, schedule
`perform_search` as a background task, and return the acknowledgement.
Result: (returned string, store after the synchronous part, queued task). -/
def find_menu_options (search_term request_id : String) (store : Store) :
    String × Store × QueuedTask :=
  let task := searchTaskText search_term
  let store1 := Store.set store request_id (pendingMsg search_term)
  (searchAck search_term request_id, store1, QueuedTask.search request_id search_term task)

/-- `order_food(item_url, item_name, context)`: build the task text, schedule
`perform_order` as a background task, and return the acknowledgement
immediately. No store write happens on this path.
Result: (returned string, store after the synchronous part, queued task). -/
def order_food (item_url item_name : String) (store : Store) :
    String × Store × QueuedTask :=
  (orderAck item_name, store, QueuedTask.order item_url item_name (orderTaskText item_url))

/-- The terminal string `perform_search` stores for a finished engine run:
the engine result on success, `f"Error: {str(e)}"` on an exception. -/
def searchOutcome (run : EngineRun) : String :=
  match run.result with
  | Except.ok r => r
  | Except.error m => "Error: " ++ m

/-- `perform_search(request_id, search_term, task, context)`: run the engine
with the per-invocation step handler; on success store the result under
`request_id`; on an exception store `f"Error: {str(e)}"` under `request_id`
and emit `context.error(...)`.
Result: (store after the run, side-channel notifications in order). -/
def perform_search (request_id search_term task : String) (e : Engine) (store : Store) :
    Store × List Notification :=
  let run := e task
  let stepNotifs := runSteps searchStepMsg 0 run.steps
  match run.result with
  | Except.ok result => (Store.set store request_id result, stepNotifs)
  | Except.error m =>
      (Store.set store request_id ("Error: " ++ m),
       stepNotifs ++
         [Notification.error ("Error searching for \x27" ++ search_term ++ "\x27: " ++ m)])

/-- `perform_order(restaurant_url, item_name, task, context)`: run the engine
with the per-invocation order step handler; on success emit a success info
notification and return the engine result; on an exception emit
`context.error(error_msg)` and return `error_msg`. The store is not touched
on any path (the function returns its outcome to its — absent — awaiter).
Result: (store after the run, notifications in order, returned string). -/
def perform_order (restaurant_url item_name task : String) (e : Engine) (store : Store) :
    Store × List Notification × String :=
  let run := e task
  let stepNotifs := runSteps orderStepMsg 0 run.steps
  match run.result with
  | Except.ok result =>
      (store,
       stepNotifs ++
         [Notification.info ("Order for \x27" ++ item_name ++ "\x27 has been placed successfully!")],
       result)
  | Except.error m =>
      (store,
       stepNotifs ++
         [Notification.error ("Error ordering \x27" ++ item_name ++ "\x27: " ++ m)],
       "Error ordering \x27" ++ item_name ++ "\x27: " ++ m)

/-- `get_search_results(request_id)`, the resource retrieval: the stored
entry if present, otherwise the short not-found string. -/
def get_search_results (request_id : String) (store : Store) : String :=
  match Store.get? store request_id with
  | none => notFoundShort request_id
  | some v => v

/-- `get_search_results_by_id(request_id)`, the tool retrieval: the stored
entry if present, otherwise the long not-found string. -/
def get_search_results_by_id (request_id : String) (store : Store) : String :=
  match Store.get? store request_id with
  | none => notFoundLong request_id
  | some v => v

/-- `get_all_search_results()`: returns the whole store (defined twice
identically in the source; modelled once). -/
def get_all_search_results (store : Store) : Store := store

/-- The dispatch operations exposed to callers, with the request identity
the transport assigns to the call (`context.request_id`). -/
inductive Dispatch
  | search (search_term request_id : String)
  | order (item_url item_name request_id : String)
deriving DecidableEq

/-- The request identity of a dispatch. -/
def dispatchId : Dispatch → String
  | Dispatch.search _ rid => rid
  | Dispatch.order _ _ rid => rid

/-- The identities submitted through `find_menu_options` in a sequence of
dispatches. -/
def searchIds : List Dispatch → List String
  | [] => []
  | Dispatch.search _ rid :: rest => rid :: searchIds rest
  | Dispatch.order _ _ _ :: rest => searchIds rest

/-- The store effect of the synchronous part of one dispatch. -/
def applyDispatch (store : Store) : Dispatch → Store
  | Dispatch.search t rid => (find_menu_options t rid store).2.1
  | Dispatch.order u n _ => (order_food u n store).2.1

/-- The store after a sequence of dispatches, left to right. -/
def applyDispatches : List Dispatch → Store → Store
  | [], s => s
  | d :: ds, s => applyDispatches ds (applyDispatch s d)

/-- A store-affecting event of the running server: the synchronous part of a
dispatch, or the completion of a previously scheduled background task. -/
inductive Event
  | dispatchSearch (search_term request_id : String)
  | dispatchOrder (item_url item_name request_id : String)
  | runSearch (request_id search_term task_text : String) (e : Engine)
  | runOrder (item_url item_name task_text : String) (e : Engine)

/-- The store effect of one event. -/
def applyEvent (s : Store) : Event → Store
  | Event.dispatchSearch t rid => (find_menu_options t rid s).2.1
  | Event.dispatchOrder u n _ => (order_food u n s).2.1
  | Event.runSearch rid t task e => (perform_search rid t task e s).1
  | Event.runOrder u n task e => (perform_order u n task e s).1

/-- The store after a sequence of events, left to right. -/
def applyEvents : List Event → Store → Store
  | [], s => s
  | ev :: tr, s => applyEvents tr (applyEvent s ev)

/-- The identities submitted by the dispatch events of a trace. -/
def submittedIds : List Event → List String
  | [] => []
  | Event.dispatchSearch _ rid :: tr => rid :: submittedIds tr
  | Event.dispatchOrder _ _ rid :: tr => rid :: submittedIds tr
  | Event.runSearch _ _ _ _ :: tr => submittedIds tr
  | Event.runOrder _ _ _ _ :: tr => submittedIds tr

/-- The identities written by `perform_search` completions of a trace. -/
def runSearchIds : List Event → List String
  | [] => []
  | Event.runSearch rid _ _ _ :: tr => rid :: runSearchIds tr
  | Event.dispatchSearch _ _ :: tr => runSearchIds tr
  | Event.dispatchOrder _ _ _ :: tr => runSearchIds tr
  | Event.runOrder _ _ _ _ :: tr => runSearchIds tr

/-- The progress values among a notification list, in emission order. -/
def progressValues (l : List Notification) : List Nat :=
  l.filterMap fun n =>
    match n with
    | Notification.progress v => some v
    | _ => none

/-- The informational messages among a notification list, in emission
order. -/
def infoMessages (l : List Notification) : List String :=
  l.filterMap fun n =>
    match n with
    | Notification.info m => some m
    | _ => none

/-- The string `perform_order` returns for a finished engine run: the engine
result on success, the order error message on an exception. -/
def orderOutcome (item_name : String) (run : EngineRun) : String :=
  match run.result with
  | Except.ok r => r
  | Except.error m => "Error ordering \x27" ++ item_name ++ "\x27: " ++ m

theorem Store.get?_set_self (s : Store) (k v : String) :
    Store.get? (Store.set s k v) k = some v := by
  induction s with
  | nil => simp [Store.set, Store.get?]
  | cons hd tl ih =>
      obtain ⟨k', v'⟩ := hd
      by_cases h : k' = k <;> simp [Store.set, Store.get?, h, ih]

theorem Store.get?_set_ne (s : Store) (k v k' : String) (h : k' ≠ k) :
    Store.get? (Store.set s k v) k' = Store.get? s k' := by
  induction s with
  | nil =>
      simp only [Store.set, Store.get?]
      rw [if_neg (fun hh => h hh.symm)]
  | cons hd tl ih =>
      obtain ⟨a, b⟩ := hd
      by_cases ha : a = k <;> by_cases ha' : a = k' <;>
        simp_all [Store.set, Store.get?]

theorem Store.mem_keys_set (s : Store) (k v x : String) :
    x ∈ Store.keys (Store.set s k v) ↔ x = k ∨ x ∈ Store.keys s := by
  induction s with
  | nil => simp [Store.set, Store.keys]
  | cons hd tl ih =>
      obtain ⟨a, b⟩ := hd
      by_cases ha : a = k <;> simp_all [Store.set, Store.keys] <;> tauto

theorem progressValues_append (a b : List Notification) :
    progressValues (a ++ b) = progressValues a ++ progressValues b := by
  simp [progressValues]

theorem infoMessages_append (a b : List Notification) :
    infoMessages (a ++ b) = infoMessages a ++ infoMessages b := by
  simp [infoMessages]

theorem progressValues_runSteps (msg : Nat → String) (c n : Nat) :
    progressValues (runSteps msg c n) = List.range' (c + 1) n := by
  induction n generalizing c with
  | zero => rfl
  | succ n ih =>
      simp [runSteps, step_handler, progressValues, List.range'_succ, ← ih]

theorem infoMessages_runSteps (msg : Nat → String) (c n : Nat) :
    infoMessages (runSteps msg c n) = (List.range' (c + 1) n).map msg := by
  induction n generalizing c with
  | zero => rfl
  | succ n ih =>
      simp [runSteps, step_handler, infoMessages, List.range'_succ, ← ih]

/-- The store after `perform_search` is exactly the input store with one
update, of the originating identity, to the terminal outcome — on both the
success and the exception path. -/
theorem perform_search_store (request_id search_term task : String) (e : Engine) (s : Store) :
    (perform_search request_id search_term task e s).1 =
      Store.set s request_id (searchOutcome (e task)) := by
  unfold perform_search searchOutcome
  cases h : (e task).result <;> simp [h]

/-- `perform_order` never changes the store, on either path. -/
theorem perform_order_store (item_url item_name task : String) (e : Engine) (s : Store) :
    (perform_order item_url item_name task e s).1 = s := by
  unfold perform_order
  cases h : (e task).result <;> simp [h]

/-- The string `perform_order` returns. -/
theorem perform_order_ret (item_url item_name task : String) (e : Engine) (s : Store) :
    (perform_order item_url item_name task e s).2.2 = orderOutcome item_name (e task) := by
  unfold perform_order orderOutcome
  cases h : (e task).result <;> simp [h]

/-- Claim C1 counterexample: a started `perform_order` execution makes no
result-store write at all. Running it to successful completion on the empty
store leaves the store empty, so no terminal write is made under any
identity — contradicting the claim that every started runner (including
`perform_order`) writes its outcome exactly once. -/
theorem claim_C1_counterexample :
    (perform_order "https://r.example" "pizza" (orderTaskText "https://r.example")
        (fun _ => EngineRun.mk 2 (Except.ok "done")) []).1 = []
    ∧ Store.get?
        ((perform_order "https://r.example" "pizza" (orderTaskText "https://r.example")
            (fun _ => EngineRun.mk 2 (Except.ok "done")) []).1) "rid0" = none := by
  exact ⟨rfl, rfl⟩

/-- Claim C1 (amended): every started `perform_search` execution, on every
exit path — engine success or engine failure — makes exactly one terminal
write of the outcome under the originating request identity (the entry for
the originating identity holds the terminal outcome and every other entry is
untouched); `perform_order`, by contrast, makes no store write on any path. -/
theorem claim_C1_search_writes_exactly_once
    (request_id search_term task : String) (e : Engine) (s : Store) :
    Store.get? (perform_search request_id search_term task e s).1 request_id
        = some (searchOutcome (e task))
    ∧ (∀ k, k ≠ request_id →
        Store.get? (perform_search request_id search_term task e s).1 k = Store.get? s k)
    ∧ (∀ item_url item_name s',
        (perform_order item_url item_name task e s').1 = s') := by
  refine ⟨?_, ?_, ?_⟩
  · rw [perform_search_store]
    exact Store.get?_set_self ..
  · intro k hk
    rw [perform_search_store]
    exact Store.get?_set_ne _ _ _ _ hk
  · intro u n s'
    exact perform_order_store ..

/-- Witness for C1: concrete instantiation — the originating identity holds
the result and an unrelated key is untouched. -/
theorem claim_C1_search_writes_exactly_once_witness :
    Store.get? (perform_search "a" "pizza" "t"
        (fun _ => EngineRun.mk 1 (Except.ok "res")) [("b", "x")]).1 "a" = some "res"
    ∧ Store.get? (perform_search "a" "pizza" "t"
        (fun _ => EngineRun.mk 1 (Except.ok "res")) [("b", "x")]).1 "b" = some "x" := by
  have h := claim_C1_search_writes_exactly_once "a" "pizza" "t"
    (fun _ => EngineRun.mk 1 (Except.ok "res")) [("b", "x")]
  exact ⟨h.1, (h.2.1 "b" (by decide)).trans rfl⟩

/-- Claim C2 counterexample: `order_food` schedules its background task
without ever writing a `Pending` entry; a retrieval for the originating
identity immediately after the dispatch returns the unknown-identity
response, not the pending response. -/
theorem claim_C2_counterexample :
    get_search_results_by_id "rid0" (order_food "https://r.example" "pizza" []).2.1
        = notFoundLong "rid0"
    ∧ Store.get? ((order_food "https://r.example" "pizza" []).2.1) "rid0" = none := by
  exact ⟨rfl, rfl⟩

/-- Claim C2 (amended): `find_menu_options` writes the `Pending` entry under
the request identity before scheduling the background runner, so a retrieval
for that identity immediately after the dispatch returns the pending
response (which differs from both unknown-identity responses); `order_food`
writes nothing, so an immediate retrieval after it yields the
unknown-identity response. -/
theorem claim_C2_pending_before_schedule
    (search_term request_id : String) (s : Store) :
    Store.get? (find_menu_options search_term request_id s).2.1 request_id
        = some (pendingMsg search_term)
    ∧ get_search_results_by_id request_id (find_menu_options search_term request_id s).2.1
        = pendingMsg search_term
    ∧ get_search_results request_id (find_menu_options search_term request_id s).2.1
        = pendingMsg search_term
    ∧ pendingMsg search_term ≠ notFoundLong request_id
    ∧ pendingMsg search_term ≠ notFoundShort request_id := by
  have hset : (find_menu_options search_term request_id s).2.1
      = Store.set s request_id (pendingMsg search_term) := rfl
  have hget := Store.get?_set_self s request_id (pendingMsg search_term)
  refine ⟨hset ▸ hget, ?_, ?_, ?_, ?_⟩
  · rw [get_search_results_by_id, hset, hget]
  · rw [get_search_results, hset, hget]
  · intro h
    have h2 : (pendingMsg search_term).data.head?
        = (notFoundLong request_id).data.head? := by rw [h]
    simp [pendingMsg, notFoundLong] at h2
  · intro h
    have h2 : (pendingMsg search_term).data.head?
        = (notFoundShort request_id).data.head? := by rw [h]
    simp [pendingMsg, notFoundShort] at h2

/-- Claim C3 counterexample: the identity of an `order_food` dispatch is
submitted but never appears among the keys of `get_all_search_results`, so
the key set is not the set of all identities ever submitted. -/
theorem claim_C3_counterexample :
    dispatchId (Dispatch.order "https://r.example" "pizza" "rid0") = "rid0"
    ∧ "rid0" ∉ Store.keys (get_all_search_results
        (applyDispatches [Dispatch.order "https://r.example" "pizza" "rid0"] [])) := by
  exact ⟨rfl, by decide⟩

/-- Claim C3 (amended): after any sequence of dispatch operations starting
from the empty store, the key set of the mapping returned by
`get_all_search_results` is exactly the set of identities submitted via
`find_menu_options`; identities submitted only via `order_food` are absent. -/
theorem claim_C3_keys_are_search_ids (ds : List Dispatch) (rid : String) :
    rid ∈ Store.keys (get_all_search_results (applyDispatches ds []))
      ↔ rid ∈ searchIds ds := by
  have main : ∀ (ds : List Dispatch) (s : Store),
      rid ∈ Store.keys (applyDispatches ds s)
        ↔ rid ∈ searchIds ds ∨ rid ∈ Store.keys s := by
    intro ds
    induction ds with
    | nil => intro s; simp [applyDispatches, searchIds]
    | cons d ds ih =>
        intro s
        cases d with
        | search t r =>
            simp only [applyDispatches, applyDispatch, find_menu_options, searchIds,
              List.mem_cons, ih, Store.mem_keys_set]
            tauto
        | order u n r =>
            simp only [applyDispatches, applyDispatch, order_food, searchIds, ih]
  rw [get_all_search_results, main]
  simp [Store.keys]

theorem progressValues_error_singleton (m : String) :
    progressValues [Notification.error m] = [] := rfl

theorem infoMessages_error_singleton (m : String) :
    infoMessages [Notification.error m] = [] := rfl

/-- Claim C4: when the engine raises with message `M`, `perform_search`
catches it, writes `"Error: " ++ M` as the terminal outcome under the
originating identity, and emits the error notification on the side channel;
both retrievals then return the stored failure string (which contains `M` as
a suffix). Retrievals are pure reads of the store, so nothing reverts the
entry to the pending response. -/
theorem claim_C4_failure_recorded
    (request_id search_term task m : String) (e : Engine) (s : Store)
    (h : (e task).result = Except.error m) :
    Store.get? (perform_search request_id search_term task e s).1 request_id
        = some ("Error: " ++ m)
    ∧ get_search_results_by_id request_id (perform_search request_id search_term task e s).1
        = "Error: " ++ m
    ∧ get_search_results request_id (perform_search request_id search_term task e s).1
        = "Error: " ++ m
    ∧ Notification.error ("Error searching for \x27" ++ search_term ++ "\x27: " ++ m)
        ∈ (perform_search request_id search_term task e s).2
    ∧ (∃ p, get_search_results_by_id request_id
        (perform_search request_id search_term task e s).1 = p ++ m) := by
  have hout : searchOutcome (e task) = "Error: " ++ m := by
    simp [searchOutcome, h]
  have hst := perform_search_store request_id search_term task e s
  rw [hout] at hst
  have hget : Store.get? (perform_search request_id search_term task e s).1 request_id
      = some ("Error: " ++ m) := by
    rw [hst]
    exact Store.get?_set_self ..
  refine ⟨hget, ?_, ?_, ?_, ?_⟩
  · rw [get_search_results_by_id, hget]
  · rw [get_search_results, hget]
  · unfold perform_search
    simp [h]
  · exact ⟨"Error: ", by rw [get_search_results_by_id, hget]⟩

/-- Witness for C4: a concrete failing engine run. -/
theorem claim_C4_failure_recorded_witness :
    Store.get? (perform_search "a" "pizza" "t"
        (fun _ => EngineRun.mk 3 (Except.error "boom")) []).1 "a"
      = some ("Error: " ++ "boom") :=
  (claim_C4_failure_recorded "a" "pizza" "t" "boom"
    (fun _ => EngineRun.mk 3 (Except.error "boom")) [] rfl).1

/-- Claim C5: in one `perform_search` execution whose engine invokes the
step callback `n` times, the reported progress values are exactly
`1, 2, ..., n` in strictly increasing order with no gaps or duplicates, and
the informational message of the `k`-th invocation is `"Step k completed"`
(the per-invocation counter starts at 0 and is incremented once per
invocation). -/
theorem claim_C5_progress_steps
    (request_id search_term task : String) (e : Engine) (s : Store) :
    progressValues (perform_search request_id search_term task e s).2
        = List.range' 1 (e task).steps
    ∧ infoMessages (perform_search request_id search_term task e s).2
        = (List.range' 1 (e task).steps).map searchStepMsg
    ∧ List.Pairwise (fun a b => a < b)
        (progressValues (perform_search request_id search_term task e s).2) := by
  have hp : progressValues (perform_search request_id search_term task e s).2
      = List.range' 1 (e task).steps := by
    unfold perform_search
    cases h : (e task).result <;>
      simp [h, progressValues_append, progressValues_error_singleton, progressValues_runSteps]
  have hi : infoMessages (perform_search request_id search_term task e s).2
      = (List.range' 1 (e task).steps).map searchStepMsg := by
    unfold perform_search
    cases h : (e task).result <;>
      simp [h, infoMessages_append, infoMessages_error_singleton, infoMessages_runSteps]
  refine ⟨hp, hi, ?_⟩
  rw [hp]
  exact List.pairwise_lt_range' 1 (e task).steps

/-- Claim C6: after `perform_search` completes successfully with engine
result `T`, both retrievals for the originating identity return exactly `T`;
the retrievals are pure reads of the store (they perform no write), so
repeated reads all return `T`. -/
theorem claim_C6_completed_idempotent
    (request_id search_term task T : String) (e : Engine) (s : Store)
    (h : (e task).result = Except.ok T) :
    Store.get? (perform_search request_id search_term task e s).1 request_id = some T
    ∧ get_search_results_by_id request_id (perform_search request_id search_term task e s).1
        = T
    ∧ get_search_results request_id (perform_search request_id search_term task e s).1
        = T := by
  have hout : searchOutcome (e task) = T := by
    simp [searchOutcome, h]
  have hst := perform_search_store request_id search_term task e s
  rw [hout] at hst
  have hget : Store.get? (perform_search request_id search_term task e s).1 request_id
      = some T := by
    rw [hst]
    exact Store.get?_set_self ..
  exact ⟨hget, by rw [get_search_results_by_id, hget], by rw [get_search_results, hget]⟩

/-- Witness for C6: a concrete successful engine run. -/
theorem claim_C6_completed_idempotent_witness :
    get_search_results_by_id "a" (perform_search "a" "pizza" "t"
        (fun _ => EngineRun.mk 4 (Except.ok "menu list")) []).1 = "menu list" :=
  (claim_C6_completed_idempotent "a" "pizza" "t" "menu list"
    (fun _ => EngineRun.mk 4 (Except.ok "menu list")) [] rfl).2.1

/-- A never-written identity stays absent across any event trace: the only
store writes are the pending write of a search dispatch (under the dispatch
identity) and the terminal write of a `perform_search` completion (under its
originating identity); order dispatches and order runs write nothing. -/
theorem get?_applyEvents_not_written (tr : List Event) (s : Store) (rid : String)
    (h0 : Store.get? s rid = none)
    (h1 : rid ∉ submittedIds tr) (h2 : rid ∉ runSearchIds tr) :
    Store.get? (applyEvents tr s) rid = none := by
  induction tr generalizing s with
  | nil => exact h0
  | cons ev tr ih =>
      cases ev with
      | dispatchSearch t r =>
          simp only [submittedIds, List.mem_cons] at h1
          push_neg at h1
          simp only [runSearchIds] at h2
          simp only [applyEvents, applyEvent]
          refine ih _ ?_ h1.2 h2
          have hfm : (find_menu_options t r s).2.1 = Store.set s r (pendingMsg t) := rfl
          rw [hfm, Store.get?_set_ne _ _ _ _ h1.1]
          exact h0
      | dispatchOrder u n r =>
          simp only [submittedIds, List.mem_cons] at h1
          push_neg at h1
          simp only [runSearchIds] at h2
          simp only [applyEvents, applyEvent]
          exact ih _ h0 h1.2 h2
      | runSearch r t task e =>
          simp only [submittedIds] at h1
          simp only [runSearchIds, List.mem_cons] at h2
          push_neg at h2
          simp only [applyEvents, applyEvent]
          refine ih _ ?_ h1 h2.2
          rw [perform_search_store, Store.get?_set_ne _ _ _ _ h2.1]
          exact h0
      | runOrder u n task e =>
          simp only [submittedIds] at h1
          simp only [runSearchIds] at h2
          simp only [applyEvents, applyEvent]
          refine ih _ ?_ h1 h2
          rw [perform_order_store]
          exact h0

/-- Claim C7: for an identity never submitted by any dispatch of a trace
(in which every `perform_search` completion belongs to some search
dispatch), both retrieval operations return their distinguishable
unknown-identity informational string; both are total functions, so no
exception is possible. -/
theorem claim_C7_unknown_identity
    (tr : List Event) (rid : String)
    (h1 : rid ∉ submittedIds tr)
    (h2 : ∀ r ∈ runSearchIds tr, r ∈ submittedIds tr) :
    get_search_results_by_id rid (applyEvents tr []) = notFoundLong rid
    ∧ get_search_results rid (applyEvents tr []) = notFoundShort rid := by
  have hnone : Store.get? (applyEvents tr []) rid = none :=
    get?_applyEvents_not_written tr [] rid rfl h1 (fun hmem => h1 (h2 _ hmem))
  exact ⟨by rw [get_search_results_by_id, hnone],
         by rw [get_search_results, hnone]⟩

/-- Witness for C7: a concrete trace with a search dispatch, its completion
and an order dispatch; a fresh identity yields the unknown-identity
response. -/
theorem claim_C7_unknown_identity_witness :
    get_search_results_by_id "c" (applyEvents
      [Event.dispatchSearch "pizza" "a",
       Event.runSearch "a" "pizza" "t" (fun _ => EngineRun.mk 1 (Except.ok "r")),
       Event.dispatchOrder "u" "burger" "b"] []) = notFoundLong "c" :=
  (claim_C7_unknown_identity
    [Event.dispatchSearch "pizza" "a",
     Event.runSearch "a" "pizza" "t" (fun _ => EngineRun.mk 1 (Except.ok "r")),
     Event.dispatchOrder "u" "burger" "b"] "c" (by decide) (by decide)).1

/-- Claim C8 counterexample: the two retrieval functions are not
extensionally equal — for an identity absent from the store, the resource
retrieval returns the short not-found string while the tool retrieval
appends extra retry guidance. -/
theorem claim_C8_counterexample :
    get_search_results "x" [] ≠ get_search_results_by_id "x" [] := by
  decide

/-- Claim C8 (amended): the two retrieval functions agree on every identity
present in the store (both return the stored entry verbatim); they differ
only on unknown identities, where each returns its own informational
not-found string (the tool variant appends retry guidance). -/
theorem claim_C8_retrievals_agree_on_present
    (request_id : String) (s : Store) (v : String)
    (h : Store.get? s request_id = some v) :
    get_search_results request_id s = get_search_results_by_id request_id s
    ∧ get_search_results request_id s = v
    ∧ get_search_results_by_id request_id (Store.set s request_id v)
        = get_search_results request_id (Store.set s request_id v) := by
  have h1 : get_search_results request_id s = v := by
    rw [get_search_results, h]
  have h2 : get_search_results_by_id request_id s = v := by
    rw [get_search_results_by_id, h]
  have h3 := Store.get?_set_self s request_id v
  refine ⟨h1.trans h2.symm, h1, ?_⟩
  rw [get_search_results_by_id, h3, get_search_results, h3]

/-- Witness for C8 (amended): a concrete one-entry store. -/
theorem claim_C8_retrievals_agree_on_present_witness :
    get_search_results "a" [("a", "menu")] = get_search_results_by_id "a" [("a", "menu")] :=
  (claim_C8_retrievals_agree_on_present "a" [("a", "menu")] "menu" rfl).1

/-- Claim C9: both dispatchers compute their acknowledgement and their store
effect without invoking the engine — neither takes the engine as input; the
background body is returned only as a queued, un-executed task descriptor.
At the moment the dispatcher returns, a retrieval for the search identity
still yields the pending message (not an engine result), and the order
dispatch has left the store untouched: the engine's final result is produced
only when the queued task is run later, which the dispatcher does not
await. -/
theorem claim_C9_ack_before_engine_result
    (search_term request_id item_url item_name : String) (s : Store) :
    (find_menu_options search_term request_id s).1 = searchAck search_term request_id
    ∧ (find_menu_options search_term request_id s).2.2
        = QueuedTask.search request_id search_term (searchTaskText search_term)
    ∧ get_search_results_by_id request_id (find_menu_options search_term request_id s).2.1
        = pendingMsg search_term
    ∧ (order_food item_url item_name s).1 = orderAck item_name
    ∧ (order_food item_url item_name s).2.2
        = QueuedTask.order item_url item_name (orderTaskText item_url)
    ∧ (order_food item_url item_name s).2.1 = s := by
  have hset : (find_menu_options search_term request_id s).2.1
      = Store.set s request_id (pendingMsg search_term) := rfl
  have hget := Store.get?_set_self s request_id (pendingMsg search_term)
  exact ⟨rfl, rfl, by rw [get_search_results_by_id, hset, hget], rfl, rfl, rfl⟩

/-- Claim C10: an `order_food` dispatch and its background `perform_order`
execution leave the result store unchanged on every path; `perform_order`
merely returns its outcome (the engine result text on success, the order
error message on failure) to its — absent — awaiter, so no retrieval can
ever observe an order outcome. -/
theorem claim_C10_order_never_stored
    (item_url item_name task : String) (e : Engine) (s : Store) :
    (order_food item_url item_name s).2.1 = s
    ∧ (perform_order item_url item_name task e s).1 = s
    ∧ (perform_order item_url item_name task e s).2.2 = orderOutcome item_name (e task)
    ∧ (∀ rid, Store.get? (perform_order item_url item_name task e s).1 rid
        = Store.get? s rid) := by
  refine ⟨rfl, perform_order_store .., perform_order_ret .., ?_⟩
  intro rid
  rw [perform_order_store]
